import Mathlib

/-!
Verification of the TC-CGPT repository (a FastAPI proxy for the
TrainerCentral API) against its natural-language specification.

The Python modules are shallowly embedded: module-level mutable stores
become explicit state values threaded through the operations, `time.time()`
becomes an explicit integer timestamp parameter, and functions that raise
become `Except`/`Option`-valued functions.
-/

namespace TCCGPT

/-! ## `utils/user_oauth.py` — session/token store and one-time auth codes

`_TOKEN_STORE` is a Python dict `session_id -> tokens`; we model a dict as
an association list whose update removes the previous binding and conses
the new one, and whose read is `List.lookup`.  A token set is itself an
opaque dict; its internal shape is irrelevant to every claim, so it is
modelled as a dict of string entries. -/

/-- A Python dict of string entries (opaque token set). -/
abbrev TokenDict := List (String × String)

/-- The module-level `_TOKEN_STORE : session_id -> tokens`. -/
abbrev TokenStore := List (String × TokenDict)

/-- `store_tokens(session_id, tokens)`: `_TOKEN_STORE[session_id] = tokens`. -/
def store_tokens (session_id : String) (tokens : TokenDict) (store : TokenStore) : TokenStore :=
  (session_id, tokens) :: store.filter (fun e => e.1 != session_id)

/-- `get_tokens(session_id)`: `_TOKEN_STORE.get(session_id)`. -/
def get_tokens (session_id : String) (store : TokenStore) : Option TokenDict :=
  store.lookup session_id

/-- `clear_tokens(session_id)`: `_TOKEN_STORE.pop(session_id, None)` (state part). -/
def clear_tokens (session_id : String) (store : TokenStore) : TokenStore :=
  store.filter (fun e => e.1 != session_id)

/-- An entry of `_AUTH_CODE_STORE`: `{ "tokens": tokens, "expires_at": expires_at }`.
`time.time()` values are modelled as integer timestamps. -/
structure AuthCodeEntry where
  tokens : TokenDict
  expires_at : Int
deriving DecidableEq, Repr

/-- The module-level `_AUTH_CODE_STORE : auth_code -> { tokens, expires_at }`. -/
abbrev AuthCodeStore := List (String × AuthCodeEntry)

/-- `create_auth_code(tokens, expires_in)`: mints `code` (a fresh `uuid4().hex`,
passed explicitly here) with `expires_at = time.time() + expires_in` and stores
`_AUTH_CODE_STORE[code] = {"tokens": tokens, "expires_at": expires_at}`. -/
def create_auth_code (tokens : TokenDict) (expires_in : Int) (now : Int) (code : String)
    (store : AuthCodeStore) : AuthCodeStore :=
  (code, { tokens := tokens, expires_at := now + expires_in }) ::
    store.filter (fun e => e.1 != code)

/-- `consume_auth_code(code)`: `entry = _AUTH_CODE_STORE.pop(code, None)`;
`None` if absent; `None` if `entry["expires_at"] < time.time()`; else the tokens.
Returns the result together with the store after the `pop`. -/
def consume_auth_code (code : String) (now : Int) (store : AuthCodeStore) :
    Option TokenDict × AuthCodeStore :=
  match store.lookup code with
  | none => (none, store)
  | some entry =>
    let store' := store.filter (fun e => e.1 != code)
    if entry.expires_at < now then (none, store') else (some entry.tokens, store')

/-! ### Generic association-list lemmas -/

theorem lookup_filter_ne_key {α : Type} (k j : String) (h : j ≠ k) (l : List (String × α)) :
    (l.filter (fun e => e.1 != k)).lookup j = l.lookup j := by
  induction l with
  | nil => rfl
  | cons e es ih =>
    by_cases he : e.1 = k
    · have h1 : (e.1 != k) = false := by simp [he]
      have h2 : (j == e.1) = false := by simp [he, h]
      simp only [List.filter_cons, h1, Bool.false_eq_true, if_false, ih, List.lookup, h2]
    · have h1 : (e.1 != k) = true := by simp [he]
      by_cases hje : j = e.1
      · have h2 : (j == e.1) = true := by simp [hje]
        simp only [List.filter_cons, h1, if_true, List.lookup, h2]
      · have h2 : (j == e.1) = false := by simp [hje]
        simp only [List.filter_cons, h1, if_true, List.lookup, h2, ih]

theorem lookup_filter_self {α : Type} (k : String) (l : List (String × α)) :
    (l.filter (fun e => e.1 != k)).lookup k = none := by
  induction l with
  | nil => rfl
  | cons e es ih =>
    by_cases he : e.1 = k
    · have h1 : (e.1 != k) = false := by simp [he]
      simp only [List.filter_cons, h1, Bool.false_eq_true, if_false, ih]
    · have h1 : (e.1 != k) = true := by simp [he]
      have h2 : (k == e.1) = false := by simp [Ne.symm he]
      simp only [List.filter_cons, h1, if_true, List.lookup, h2, ih]

theorem lookup_filter_none {α : Type} (k : String) (p : String × α → Bool)
    (l : List (String × α)) (h : l.lookup k = none) : (l.filter p).lookup k = none := by
  induction l with
  | nil => rfl
  | cons e es ih =>
    by_cases hk : (k == e.1) = true
    · rw [List.lookup] at h
      rw [hk] at h
      exact absurd h (by simp)
    · have hk' : (k == e.1) = false := by
        exact Bool.not_eq_true _ ▸ (by simpa using hk)
      have hes : es.lookup k = none := by
        rw [List.lookup, hk'] at h
        exact h
      by_cases hp : p e = true
      · simp only [List.filter_cons, hp, if_true, List.lookup, hk', ih hes]
      · have hp' : p e = false := by simpa using hp
        simp only [List.filter_cons, hp', Bool.false_eq_true, if_false, ih hes]

theorem consume_of_lookup_none (c : String) (now : Int) (σ : AuthCodeStore)
    (h : σ.lookup c = none) : consume_auth_code c now σ = (none, σ) := by
  simp [consume_auth_code, h]

/-! ### C10 — token store semantics -/

/-- C10: `get_tokens(s)` immediately after `store_tokens(s, t)` returns `t`; for any
other session id `s' ≠ s` the store is unchanged as observed by `get_tokens`;
`get_tokens` of a never-stored session id (empty store) and of a cleared session id
returns none rather than failing. -/
theorem C10_token_store_semantics (s s' : String) (t : TokenDict) (σ : TokenStore)
    (h : s' ≠ s) :
    get_tokens s (store_tokens s t σ) = some t ∧
    get_tokens s' (store_tokens s t σ) = get_tokens s' σ ∧
    get_tokens s ([] : TokenStore) = none ∧
    get_tokens s (clear_tokens s σ) = none := by
  refine ⟨?_, ?_, rfl, ?_⟩
  · simp [get_tokens, store_tokens, List.lookup]
  · have hne : (s' == s) = false := by simp [h]
    simp [get_tokens, store_tokens, List.lookup, hne, lookup_filter_ne_key s s' h]
  · exact lookup_filter_self s σ

/-- Witness for C10 at concrete inputs. -/
theorem C10_token_store_semantics_witness :
    get_tokens "sA" (store_tokens "sA" [("access_token", "x")] [("sB", [])]) =
      some [("access_token", "x")] ∧
    get_tokens "sB" (store_tokens "sA" [("access_token", "x")] [("sB", [])]) =
      get_tokens "sB" [("sB", [])] ∧
    get_tokens "sA" ([] : TokenStore) = none ∧
    get_tokens "sA" (clear_tokens "sA" [("sB", [])]) = none :=
  C10_token_store_semantics "sA" "sB" [("access_token", "x")] [("sB", [])] (by decide)

/-! ### C1 — exactly-once consumption -/

/-- An operation on the auth-code store (the store operations that can be
interleaved between two `consume_auth_code` calls). -/
inductive StoreOp where
  | mint (tokens : TokenDict) (expires_in : Int) (now : Int) (code : String)
  | consume (code : String) (now : Int)

/-- Effect of a store operation on `_AUTH_CODE_STORE`. -/
def applyOp (σ : AuthCodeStore) : StoreOp → AuthCodeStore
  | .mint t e n c => create_auth_code t e n c σ
  | .consume c n => (consume_auth_code c n σ).2

/-- Whether an operation mints the given code.  `create_auth_code` always mints a
fresh `uuid4().hex`, so an interleaving never re-mints an already-minted code. -/
def mintsCode (c : String) : StoreOp → Bool
  | .mint _ _ _ c' => c' == c
  | .consume _ _ => false

theorem lookup_applyOp_none (c : String) (σ : AuthCodeStore) (op : StoreOp)
    (hop : mintsCode c op = false) (h : σ.lookup c = none) :
    (applyOp σ op).lookup c = none := by
  cases op with
  | mint t e n c' =>
    have hop' : ¬ c' = c := by simpa [mintsCode] using hop
    have hne : (c == c') = false := by simp [Ne.symm hop']
    simp only [applyOp, create_auth_code, List.lookup, hne]
    exact lookup_filter_none c _ σ h
  | consume c' n =>
    simp only [applyOp, consume_auth_code]
    cases hl : σ.lookup c' with
    | none => simpa using h
    | some entry =>
      by_cases hexp : entry.expires_at < n
      · simp only [hl, if_pos hexp]
        exact lookup_filter_none c _ σ h
      · simp only [hl, if_neg hexp]
        exact lookup_filter_none c _ σ h

theorem lookup_foldl_none (c : String) (ops : List StoreOp) (σ : AuthCodeStore)
    (hops : ∀ op ∈ ops, mintsCode c op = false) (h : σ.lookup c = none) :
    (ops.foldl applyOp σ).lookup c = none := by
  induction ops generalizing σ with
  | nil => simpa using h
  | cons op rest ih =>
    simp only [List.foldl_cons]
    exact ih _ (fun o ho => hops o (List.mem_cons_of_mem _ ho))
      (lookup_applyOp_none c σ op (hops op (List.mem_cons_self _ _)) h)

theorem consume_some_lookup_none (c : String) (now : Int) (σ : AuthCodeStore) (t : TokenDict)
    (h : (consume_auth_code c now σ).1 = some t) :
    (consume_auth_code c now σ).2.lookup c = none := by
  unfold consume_auth_code at h ⊢
  cases hl : σ.lookup c with
  | none => simp [hl] at h
  | some entry =>
    by_cases hexp : entry.expires_at < now
    · simp [hl, hexp] at h
    · simp only [hl, if_neg hexp]
      exact lookup_filter_self c σ

/-- C1: exactly-once consumption.  If a `consume_auth_code` call on code `c`
returns the token set, then a second `consume_auth_code` call with the same code
returns none — whatever store operations (consumptions of any code, mints of
fresh codes: `create_auth_code` keys entries by a fresh `uuid4().hex`, so no
interleaved mint re-binds `c`) happen in between. -/
theorem C1_consume_exactly_once (c : String) (now₁ now₂ : Int) (σ : AuthCodeStore)
    (t : TokenDict) (ops : List StoreOp)
    (h1 : (consume_auth_code c now₁ σ).1 = some t)
    (hops : ∀ op ∈ ops, mintsCode c op = false) :
    (consume_auth_code c now₂ (ops.foldl applyOp (consume_auth_code c now₁ σ).2)).1 = none := by
  have h2 : (ops.foldl applyOp (consume_auth_code c now₁ σ).2).lookup c = none :=
    lookup_foldl_none c ops _ hops (consume_some_lookup_none c now₁ σ t h1)
  rw [consume_of_lookup_none c now₂ _ h2]

/-- Witness for C1: a code minted with a 60-second ttl, consumed at once, with an
unrelated mint interleaved before the second consumption. -/
theorem C1_consume_exactly_once_witness :
    (consume_auth_code "c1" 1010
      ([StoreOp.mint [("access_token", "b")] 60 1001 "c2"].foldl applyOp
        (consume_auth_code "c1" 1000
          (create_auth_code [("access_token", "a")] 60 1000 "c1" [])).2)).1 = none := by
  refine C1_consume_exactly_once "c1" 1000 1010 _ [("access_token", "a")] _ ?_ ?_
  · decide
  · intro op hop
    simp only [List.mem_singleton] at hop
    subst hop
    decide

/-! ### C2 — expired codes -/

/-- C2 counterexample: a code minted with `ttl_seconds = 0` IS consumable at the
minting instant itself — the expiry check `entry["expires_at"] < time.time()` is
strict, and with `expires_in = 0` the entry's `expires_at` equals the minting
time, so consumption at that same time returns the tokens, not none. -/
theorem C2_counterexample :
    (consume_auth_code "c" 1000
      (create_auth_code [("access_token", "tok")] 0 1000 "c" [])).1 =
      some [("access_token", "tok")] := by
  decide

/-- C2 (amended): a code minted with `ttl_seconds = 0` at time `mint` returns none
from `consume_auth_code` at every time strictly later than `mint`; and any stored
code whose `expires_at` is strictly before the consumption time returns none. -/
theorem C2_expired_code_not_consumable (t : TokenDict) (mint now : Int) (c : String)
    (σ : AuthCodeStore) (h : mint < now) :
    (consume_auth_code c now (create_auth_code t 0 mint c σ)).1 = none ∧
    (∀ e : AuthCodeEntry, ∀ σ' : AuthCodeStore, σ'.lookup c = some e →
      e.expires_at < now → (consume_auth_code c now σ').1 = none) := by
  constructor
  · have hl : (create_auth_code t 0 mint c σ).lookup c =
        some { tokens := t, expires_at := mint + 0 } := by
      simp [create_auth_code, List.lookup]
    simp [consume_auth_code, hl, h]
  · intro e σ' hl hexp
    simp [consume_auth_code, hl, hexp]

/-- Witness for C2 (amended) at concrete inputs. -/
theorem C2_expired_code_not_consumable_witness :
    (consume_auth_code "c" 1001
      (create_auth_code [("access_token", "tok")] 0 1000 "c" [])).1 = none ∧
    (∀ e : AuthCodeEntry, ∀ σ' : AuthCodeStore, σ'.lookup "c" = some e →
      e.expires_at < 1001 → (consume_auth_code "c" 1001 σ').1 = none) :=
  C2_expired_code_not_consumable [("access_token", "tok")] 1000 1001 "c" [] (by decide)

/-! ## Org context (`_USER_ORG_INFO` in `utils/user_oauth.py`)

`store_user_org_info` mutates the module-level dict in place;
`get_user_org_info` returns `_USER_ORG_INFO.copy()`.  To make the copy
observable we model a heap of dict objects: the cell at address 0 is the
module-level `_USER_ORG_INFO`, and `get_user_org_info` allocates a fresh cell
holding the copy and hands its address to the caller. -/

/-- The `{"org_id": ..., "domain": ...}` dict. -/
structure OrgInfo where
  org_id : Option String
  domain : Option String
deriving DecidableEq, Repr

/-- A heap of `OrgInfo` dict objects; addresses are list indices. -/
structure OrgHeap where
  cells : List OrgInfo
deriving DecidableEq, Repr

/-- Address of the module-level `_USER_ORG_INFO`. -/
def userOrgAddr : Nat := 0

/-- Module initial state: `_USER_ORG_INFO = {"org_id": None, "domain": None}`. -/
def initOrgHeap : OrgHeap := ⟨[{ org_id := none, domain := none }]⟩

def readCell (h : OrgHeap) (a : Nat) : OrgInfo :=
  h.cells.getD a { org_id := none, domain := none }

def writeCell (h : OrgHeap) (a : Nat) (v : OrgInfo) : OrgHeap :=
  ⟨h.cells.set a v⟩

/-- `store_user_org_info(org_id, domain)`: in-place update of both fields of the
module-level dict. -/
def store_user_org_info (org_id domain : String) (h : OrgHeap) : OrgHeap :=
  writeCell h userOrgAddr { org_id := some org_id, domain := some domain }

/-- `get_user_org_info()`: `return _USER_ORG_INFO.copy()` — allocates a fresh
dict holding a copy of the module-level dict, returning its address. -/
def get_user_org_info (h : OrgHeap) : Nat × OrgHeap :=
  (h.cells.length, ⟨h.cells ++ [readCell h userOrgAddr]⟩)

theorem readCell_writeCell_pos (h : OrgHeap) (r : Nat) (hr : 0 < r) (v : OrgInfo) :
    readCell (writeCell h r v) userOrgAddr = readCell h userOrgAddr := by
  obtain ⟨k, rfl⟩ : ∃ k, r = k + 1 := ⟨r - 1, by omega⟩
  cases hc : h.cells with
  | nil => simp [readCell, writeCell, hc]
  | cons x xs => simp [readCell, writeCell, hc, userOrgAddr]

theorem readCell_foldl_write_pos (r : Nat) (hr : 0 < r) (muts : List OrgInfo) (h : OrgHeap) :
    readCell (muts.foldl (fun acc v => writeCell acc r v) h) userOrgAddr =
      readCell h userOrgAddr := by
  induction muts generalizing h with
  | nil => rfl
  | cons m ms ih =>
    simp only [List.foldl_cons]
    rw [ih, readCell_writeCell_pos _ _ hr]

theorem readCell_store_user_org_info (o d : String) (h : OrgHeap)
    (hlen : 0 < h.cells.length) :
    readCell (store_user_org_info o d h) userOrgAddr =
      { org_id := some o, domain := some d } := by
  cases hc : h.cells with
  | nil => rw [hc] at hlen; simp at hlen
  | cons x xs => simp [readCell, store_user_org_info, writeCell, userOrgAddr, hc]

theorem readCell_append_self (l l' : List OrgInfo) (x : OrgInfo) :
    readCell ⟨l ++ x :: l'⟩ l.length = x := by
  induction l with
  | nil => rfl
  | cons a as ih => simpa [readCell, List.getD] using ih

theorem readCell_append_zero (l l' : List OrgInfo) (h0 : 0 < l.length) :
    readCell ⟨l ++ l'⟩ userOrgAddr = readCell ⟨l⟩ userOrgAddr := by
  cases l with
  | nil => simp at h0
  | cons a as => simp [readCell, userOrgAddr]

/-- C9: after `store_user_org_info o d`, any sequence of in-place mutations
applied by the caller to the dict object returned by `get_user_org_info`
leaves the module-level dict untouched (it was a copy), so a subsequent
`get_user_org_info` still observes exactly `o` and `d`; and the initial context
before any store has both fields none. -/
theorem C9_get_user_org_info_returns_copy (o d : String) (h : OrgHeap)
    (muts : List OrgInfo) (hlen : 0 < h.cells.length) :
    readCell
        ((get_user_org_info
            (muts.foldl
              (fun acc v =>
                writeCell acc (get_user_org_info (store_user_org_info o d h)).1 v)
              (get_user_org_info (store_user_org_info o d h)).2)).2)
        ((get_user_org_info
            (muts.foldl
              (fun acc v =>
                writeCell acc (get_user_org_info (store_user_org_info o d h)).1 v)
              (get_user_org_info (store_user_org_info o d h)).2)).1)
      = { org_id := some o, domain := some d } ∧
    readCell initOrgHeap userOrgAddr = { org_id := none, domain := none } := by
  refine ⟨?_, rfl⟩
  have hlen1 : (store_user_org_info o d h).cells.length = h.cells.length := by
    simp [store_user_org_info, writeCell]
  have hr : 0 < (get_user_org_info (store_user_org_info o d h)).1 := by
    simpa [get_user_org_info, hlen1] using hlen
  have hread :
      readCell
        (muts.foldl
          (fun acc v =>
            writeCell acc (get_user_org_info (store_user_org_info o d h)).1 v)
          (get_user_org_info (store_user_org_info o d h)).2) userOrgAddr =
        { org_id := some o, domain := some d } := by
    rw [readCell_foldl_write_pos _ hr]
    show readCell ⟨(store_user_org_info o d h).cells ++ [_]⟩ userOrgAddr = _
    rw [readCell_append_zero _ _ (by omega)]
    exact readCell_store_user_org_info o d h hlen
  show readCell ⟨_ ++ [readCell _ userOrgAddr]⟩ _ = _
  rw [hread]
  exact readCell_append_self _ [] _

/-- Witness for C9 at concrete inputs: store, get a copy, overwrite the copy,
observe the store unchanged. -/
theorem C9_get_user_org_info_returns_copy_witness :
    readCell
        ((get_user_org_info
            ([({ org_id := some "HACKED", domain := none } : OrgInfo)].foldl
              (fun acc v =>
                writeCell acc
                  (get_user_org_info (store_user_org_info "org9" "https://t.example" initOrgHeap)).1 v)
              (get_user_org_info (store_user_org_info "org9" "https://t.example" initOrgHeap)).2)).2)
        ((get_user_org_info
            ([({ org_id := some "HACKED", domain := none } : OrgInfo)].foldl
              (fun acc v =>
                writeCell acc
                  (get_user_org_info (store_user_org_info "org9" "https://t.example" initOrgHeap)).1 v)
              (get_user_org_info (store_user_org_info "org9" "https://t.example" initOrgHeap)).2)).1)
      = { org_id := some "org9", domain := some "https://t.example" } ∧
    readCell initOrgHeap userOrgAddr = { org_id := none, domain := none } :=
  C9_get_user_org_info_returns_copy "org9" "https://t.example" initOrgHeap
    [{ org_id := some "HACKED", domain := none }] (by decide)

/-! ## Gateway client construction (C7)

`TrainerCentralCommon.__init__` (`library/common_utils.py`) and
`TrainerCentralCourses.__init__` (`library/courses.py`) have identical bodies:
read `get_user_org_info()`, fall back to `os.getenv`, raise `ValueError` (the
spec's `OrgNotConfigured`) when either value is missing, else build
`base_url = f"{DOMAIN}/api/v4/{ORG_ID}"`. -/

/-- Python truthiness of an optional string (`None` and `""` are falsy). -/
def truthy : Option String → Bool
  | none => false
  | some s => s != ""

/-- Python `x or y` on optional strings: the value of `y` when `x` is falsy. -/
def pyOr (x y : Option String) : Option String :=
  if truthy x then x else y

/-- How an f-string renders an optional value (`None` renders as `"None"`). -/
def pyStr : Option String → String
  | none => "None"
  | some s => s

/-- `os.getenv("ORG_ID")` / `os.getenv("DOMAIN")`. -/
structure EnvOrg where
  ORG_ID : Option String
  DOMAIN : Option String
deriving DecidableEq, Repr

/-- A constructed gateway client (`self.ORG_ID`, `self.DOMAIN`, `self.base_url`). -/
structure GatewayClient where
  ORG_ID : Option String
  DOMAIN : Option String
  base_url : String
deriving DecidableEq, Repr

/-- `TrainerCentralCommon.__init__`. -/
def TrainerCentralCommon_init (orgInfo : OrgInfo) (env : EnvOrg) :
    Except String GatewayClient :=
  let oid := pyOr orgInfo.org_id env.ORG_ID
  let dom := pyOr orgInfo.domain env.DOMAIN
  if !truthy oid || !truthy dom then
    .error "ORG_ID and DOMAIN must be configured via user OAuth flow or environment variables"
  else
    .ok { ORG_ID := oid, DOMAIN := dom,
          base_url := pyStr dom ++ "/api/v4/" ++ pyStr oid }

/-- `TrainerCentralCourses.__init__` (same body as `TrainerCentralCommon.__init__`). -/
def TrainerCentralCourses_init (orgInfo : OrgInfo) (env : EnvOrg) :
    Except String GatewayClient :=
  let oid := pyOr orgInfo.org_id env.ORG_ID
  let dom := pyOr orgInfo.domain env.DOMAIN
  if !truthy oid || !truthy dom then
    .error "ORG_ID and DOMAIN must be configured via user OAuth flow or environment variables"
  else
    .ok { ORG_ID := oid, DOMAIN := dom,
          base_url := pyStr dom ++ "/api/v4/" ++ pyStr oid }

/-- C7 counterexample: with the `ORG_ID`/`DOMAIN` environment fallback
configured, a gateway constructor invoked before any `store_user_org_info`
(org context still `{"org_id": None, "domain": None}`) succeeds instead of
failing with `OrgNotConfigured`. -/
theorem C7_counterexample :
    TrainerCentralCommon_init (readCell initOrgHeap userOrgAddr)
        { ORG_ID := some "envOrg", DOMAIN := some "https://env.example" } =
      .ok { ORG_ID := some "envOrg", DOMAIN := some "https://env.example",
            base_url := "https://env.example/api/v4/envOrg" } := rfl

/-- C7 (amended): a gateway constructor invoked before `store_user_org_info`
with no environment fallback fails with the configuration `ValueError` (the
spec's `OrgNotConfigured`); and whenever construction succeeds, `ORG_ID` and
`DOMAIN` are present non-empty strings and `base_url` is built from them — a
`None` is never formatted into the URL. -/
theorem C7_no_null_url (orgInfo : OrgInfo) (env : EnvOrg) (c : GatewayClient)
    (hc : TrainerCentralCommon_init orgInfo env = .ok c ∨
          TrainerCentralCourses_init orgInfo env = .ok c) :
    (TrainerCentralCommon_init (readCell initOrgHeap userOrgAddr)
        { ORG_ID := none, DOMAIN := none } =
      .error "ORG_ID and DOMAIN must be configured via user OAuth flow or environment variables") ∧
    (TrainerCentralCourses_init (readCell initOrgHeap userOrgAddr)
        { ORG_ID := none, DOMAIN := none } =
      .error "ORG_ID and DOMAIN must be configured via user OAuth flow or environment variables") ∧
    ∃ o dm : String, o ≠ "" ∧ dm ≠ "" ∧ c.ORG_ID = some o ∧ c.DOMAIN = some dm ∧
      c.base_url = dm ++ "/api/v4/" ++ o := by
  refine ⟨rfl, rfl, ?_⟩
  have hmain : ∀ oi : Option String, ∀ dm : Option String,
      truthy oi = true → truthy dm = true →
      c = { ORG_ID := oi, DOMAIN := dm, base_url := pyStr dm ++ "/api/v4/" ++ pyStr oi } →
      ∃ o dm' : String, o ≠ "" ∧ dm' ≠ "" ∧ c.ORG_ID = some o ∧ c.DOMAIN = some dm' ∧
        c.base_url = dm' ++ "/api/v4/" ++ o := by
    intro oi dm hoi hdm hceq
    cases oi with
    | none => simp [truthy] at hoi
    | some o =>
      cases dm with
      | none => simp [truthy] at hdm
      | some dm' =>
        refine ⟨o, dm', ?_, ?_, ?_, ?_, ?_⟩ <;>
          simp_all [truthy, pyStr]
  cases hc with
  | inl h =>
    unfold TrainerCentralCommon_init at h
    by_cases hcond : (!truthy (pyOr orgInfo.org_id env.ORG_ID)
        || !truthy (pyOr orgInfo.domain env.DOMAIN)) = true
    · rw [if_pos hcond] at h; exact absurd h (by simp)
    · rw [if_neg hcond] at h
      simp only [Bool.or_eq_true, Bool.not_eq_true', not_or, Bool.not_eq_false] at hcond
      exact hmain _ _ hcond.1 hcond.2 (by injection h with h'; exact h'.symm)
  | inr h =>
    unfold TrainerCentralCourses_init at h
    by_cases hcond : (!truthy (pyOr orgInfo.org_id env.ORG_ID)
        || !truthy (pyOr orgInfo.domain env.DOMAIN)) = true
    · rw [if_pos hcond] at h; exact absurd h (by simp)
    · rw [if_neg hcond] at h
      simp only [Bool.or_eq_true, Bool.not_eq_true', not_or, Bool.not_eq_false] at hcond
      exact hmain _ _ hcond.1 hcond.2 (by injection h with h'; exact h'.symm)

/-- Witness for C7 (amended) at a concrete successful construction. -/
theorem C7_no_null_url_witness :
    (TrainerCentralCommon_init (readCell initOrgHeap userOrgAddr)
        { ORG_ID := none, DOMAIN := none } =
      .error "ORG_ID and DOMAIN must be configured via user OAuth flow or environment variables") ∧
    (TrainerCentralCourses_init (readCell initOrgHeap userOrgAddr)
        { ORG_ID := none, DOMAIN := none } =
      .error "ORG_ID and DOMAIN must be configured via user OAuth flow or environment variables") ∧
    ∃ o dm : String, o ≠ "" ∧ dm ≠ "" ∧
      ({ ORG_ID := some "o1", DOMAIN := some "https://d.example",
         base_url := "https://d.example/api/v4/o1" } : GatewayClient).ORG_ID = some o ∧
      ({ ORG_ID := some "o1", DOMAIN := some "https://d.example",
         base_url := "https://d.example/api/v4/o1" } : GatewayClient).DOMAIN = some dm ∧
      ({ ORG_ID := some "o1", DOMAIN := some "https://d.example",
         base_url := "https://d.example/api/v4/o1" } : GatewayClient).base_url =
        dm ++ "/api/v4/" ++ o :=
  C7_no_null_url { org_id := some "o1", domain := some "https://d.example" }
    { ORG_ID := none, DOMAIN := none } _ (Or.inl rfl)

/-! ## `POST /auth/token` — `token_exchange` in `routers/oauth.py` (C8) -/

/-- `os.getenv("CLIENT_ID")` / `os.getenv("CLIENT_SECRET")`. -/
structure OAuthEnv where
  CLIENT_ID : Option String
  CLIENT_SECRET : Option String
deriving DecidableEq, Repr

/-- The form fields of `POST /auth/token` (`Form(None)` fields are optional). -/
structure TokenRequestForm where
  grant_type : String
  code : Option String
  redirect_uri : Option String
  client_id : Option String
  client_secret : Option String
deriving DecidableEq, Repr

/-- The `data` dict sent to the provider's token endpoint when the exchange is
attempted. -/
structure ProviderExchange where
  code : Option String
  client_id : Option String
  client_secret : Option String
  grant_type : String
  redirect_uri : Option String
deriving DecidableEq, Repr

/-- Outcome of `token_exchange` up to the upstream call: either an
`HTTPException` raised by one of the guards, or the code exchange actually
issued to the provider. -/
inductive TokenExchangeStep where
  | httpError (status : Nat) (detail : String)
  | exchange (req : ProviderExchange)
deriving DecidableEq, Repr

/-- The guard cascade of `token_exchange` (`routers/oauth.py` lines 117–142):
wrong `grant_type` → 400 `unsupported_grant_type`; missing/empty `code` → 400
`missing_code`; a supplied (truthy) `client_id` or `client_secret` differing
from the configured value → 401 `invalid_client`; otherwise the code is
exchanged with the provider using the supplied `redirect_uri`. -/
def token_exchange (env : OAuthEnv) (f : TokenRequestForm) : TokenExchangeStep :=
  if f.grant_type != "authorization_code" then .httpError 400 "unsupported_grant_type"
  else if !truthy f.code then .httpError 400 "missing_code"
  else if truthy f.client_id && f.client_id != env.CLIENT_ID then
    .httpError 401 "invalid_client"
  else if truthy f.client_secret && f.client_secret != env.CLIENT_SECRET then
    .httpError 401 "invalid_client"
  else
    .exchange { code := f.code, client_id := env.CLIENT_ID,
                client_secret := env.CLIENT_SECRET,
                grant_type := "authorization_code", redirect_uri := f.redirect_uri }

/-- C8: each failing validation of `POST /auth/token` yields the corresponding
HTTP error, and in every such failure case no code exchange with the upstream
provider is attempted. -/
theorem C8_token_exchange_guards (env : OAuthEnv) (f : TokenRequestForm) :
    (f.grant_type ≠ "authorization_code" →
      token_exchange env f = .httpError 400 "unsupported_grant_type") ∧
    (f.grant_type = "authorization_code" → truthy f.code = false →
      token_exchange env f = .httpError 400 "missing_code") ∧
    (f.grant_type = "authorization_code" → truthy f.code = true →
      truthy f.client_id = true → f.client_id ≠ env.CLIENT_ID →
      token_exchange env f = .httpError 401 "invalid_client") ∧
    (f.grant_type = "authorization_code" → truthy f.code = true →
      (truthy f.client_id = false ∨ f.client_id = env.CLIENT_ID) →
      truthy f.client_secret = true → f.client_secret ≠ env.CLIENT_SECRET →
      token_exchange env f = .httpError 401 "invalid_client") ∧
    (∀ s dt, token_exchange env f = .httpError s dt →
      ∀ r, token_exchange env f ≠ .exchange r) := by
  refine ⟨?_, ?_, ?_, ?_, ?_⟩
  · intro hg
    simp [token_exchange, hg]
  · intro hg hc
    simp [token_exchange, hg, hc]
  · intro hg hc hid hne
    simp [token_exchange, hg, hc, hid, hne]
  · intro hg hc hid hs hne
    rcases hid with hid | hid
    · simp [token_exchange, hg, hc, hid, hs, hne]
    · simp [token_exchange, hg, hc, hid, hs, hne]
  · intro s dt herr r
    rw [herr]
    simp

/-- Witness for C8: each guard exercised at concrete form data. -/
theorem C8_token_exchange_guards_witness :
    (token_exchange { CLIENT_ID := some "cid", CLIENT_SECRET := some "sec" }
        { grant_type := "client_credentials", code := some "k",
          redirect_uri := none, client_id := none, client_secret := none } =
      .httpError 400 "unsupported_grant_type") ∧
    (token_exchange { CLIENT_ID := some "cid", CLIENT_SECRET := some "sec" }
        { grant_type := "authorization_code", code := none,
          redirect_uri := none, client_id := none, client_secret := none } =
      .httpError 400 "missing_code") ∧
    (token_exchange { CLIENT_ID := some "cid", CLIENT_SECRET := some "sec" }
        { grant_type := "authorization_code", code := some "k",
          redirect_uri := none, client_id := some "WRONG", client_secret := none } =
      .httpError 401 "invalid_client") ∧
    (token_exchange { CLIENT_ID := some "cid", CLIENT_SECRET := some "sec" }
        { grant_type := "authorization_code", code := some "k",
          redirect_uri := none, client_id := some "cid", client_secret := some "WRONG" } =
      .httpError 401 "invalid_client") :=
  ⟨(C8_token_exchange_guards _ _).1 (by decide),
   (C8_token_exchange_guards _ _).2.1 rfl (by decide),
   (C8_token_exchange_guards _ _).2.2.1 rfl (by decide) (by decide) (by decide),
   (C8_token_exchange_guards _ _).2.2.2.1 rfl (by decide) (Or.inr rfl) (by decide) (by decide)⟩

/-! ## Upstream response handling in the gateway clients (C3)

`TrainerCentralCommon.delete_resource` and `TrainerCentralCourses.post_course`
issue the HTTP call and `return response.json()` — the parsed body, with no
inspection of the status code.  The HTTP layer is an oracle from requests to
responses; a response whose body is not valid JSON is one whose
`body_json` is `none` (`response.json()` raises on it). -/

/-- An opaque JSON body, modelled as a string dict. -/
abbrev JsonBody := List (String × String)

/-- An outbound HTTP request as built by the gateway client. -/
structure HttpRequest where
  method : String
  url : String
  bearer : String
  payload : Option (String × JsonBody)
deriving DecidableEq, Repr

/-- An upstream HTTP response. -/
structure UpstreamResponse where
  status : Nat
  body_json : Option JsonBody
deriving DecidableEq, Repr

/-- What a gateway operation can hand back to its caller.  `upstreamError` is
the outcome the spec prescribes for non-2xx responses; it exists in the model
so that its absence from the code's behaviour is expressible. -/
inductive GatewayOutcome where
  | success (body : JsonBody)
  | upstreamError (status : Nat) (body : JsonBody)
  | decodeFailure
deriving DecidableEq, Repr

/-- `TrainerCentralCommon.delete_resource(resource, resource_id)`:
`DELETE {base_url}/{resource}/{resource_id}.json` with the bearer token, then
`return response.json()`. -/
def delete_resource (c : GatewayClient) (access_token : String)
    (http : HttpRequest → UpstreamResponse) (resource resource_id : String) :
    GatewayOutcome :=
  let request_url := c.base_url ++ "/" ++ resource ++ "/" ++ resource_id ++ ".json"
  let response := http { method := "DELETE", url := request_url,
                         bearer := access_token, payload := none }
  match response.body_json with
  | some j => .success j
  | none => .decodeFailure

/-- `TrainerCentralCourses.post_course(course_data)`:
`POST {base_url}/courses.json` with body `{"course": course_data}`, then
`return response.json()`. -/
def post_course (c : GatewayClient) (access_token : String)
    (http : HttpRequest → UpstreamResponse) (course_data : JsonBody) :
    GatewayOutcome :=
  let request_url := c.base_url ++ "/courses.json"
  let response := http { method := "POST", url := request_url,
                         bearer := access_token, payload := some ("course", course_data) }
  match response.body_json with
  | some j => .success j
  | none => .decodeFailure

/-- C3 counterexample: a 404 upstream response with a JSON error body is
returned by `delete_resource` and `post_course` as a plain success carrying
that body — not surfaced as an `UpstreamError` with the status code. -/
theorem C3_counterexample :
    delete_resource
        { ORG_ID := some "o", DOMAIN := some "https://d.example",
          base_url := "https://d.example/api/v4/o" } "tok"
        (fun _ => { status := 404, body_json := some [("errorCode", "INVALID")] })
        "courses" "123" = .success [("errorCode", "INVALID")] ∧
    post_course
        { ORG_ID := some "o", DOMAIN := some "https://d.example",
          base_url := "https://d.example/api/v4/o" } "tok"
        (fun _ => { status := 500, body_json := some [("error", "server")] })
        [("courseName", "X")] = .success [("error", "server")] :=
  ⟨rfl, rfl⟩

/-- C3 (amended): the gateway operations never inspect the status code — for any
status, a JSON body is returned as a success and an unparsable body is a decode
failure; an `UpstreamError` outcome is never produced. -/
theorem C3_status_ignored (c : GatewayClient) (tok : String) (resource resource_id : String)
    (course_data : JsonBody) (resp : UpstreamResponse) :
    (∀ j, resp.body_json = some j →
      delete_resource c tok (fun _ => resp) resource resource_id = .success j ∧
      post_course c tok (fun _ => resp) course_data = .success j) ∧
    (resp.body_json = none →
      delete_resource c tok (fun _ => resp) resource resource_id = .decodeFailure ∧
      post_course c tok (fun _ => resp) course_data = .decodeFailure) ∧
    (∀ s b, delete_resource c tok (fun _ => resp) resource resource_id ≠ .upstreamError s b ∧
            post_course c tok (fun _ => resp) course_data ≠ .upstreamError s b) := by
  refine ⟨?_, ?_, ?_⟩
  · intro j hj
    constructor <;> simp [delete_resource, post_course, hj]
  · intro hj
    constructor <;> simp [delete_resource, post_course, hj]
  · intro s b
    constructor <;>
      · simp only [delete_resource, post_course]
        cases resp.body_json <;> simp
/-- Witness for C3 (amended) at concrete inputs. -/
theorem C3_status_ignored_witness :
    delete_resource
        { ORG_ID := some "o", DOMAIN := some "https://d.example",
          base_url := "https://d.example/api/v4/o" } "tok"
        (fun _ => { status := 403, body_json := some [("e", "denied")] })
        "sessions" "9" = .success [("e", "denied")] ∧
    post_course
        { ORG_ID := some "o", DOMAIN := some "https://d.example",
          base_url := "https://d.example/api/v4/o" } "tok"
        (fun _ => { status := 403, body_json := some [("e", "denied")] })
        [("courseName", "X")] = .success [("e", "denied")] :=
  (C3_status_ignored _ "tok" "sessions" "9" [("courseName", "X")]
      { status := 403, body_json := some [("e", "denied")] }).1 _ rfl

/-! ## Composite creates (C6) — modelled from the spec

The classes behind the composite endpoints (`TrainerCentralLessons` in
`library/lessons.py`, `TrainerCentralAssignments` in `library/assignments.py`,
`TrainerCentralTests` in `library/tests.py`) are not present under `src/` —
only their routers are.  Their composite operations are modelled from the
spec (§4.4): create the parent resource, then upload the dependent artifact
referencing the identifier returned by the first call; not transactional; both
sub-results are exposed to the caller. -/

/-- Result of one upstream call of a composite operation: a success carries the
created resource's identifier and body, a failure the upstream status and body. -/
inductive UpstreamCallResult where
  | success (resourceId : String) (body : JsonBody)
  | failure (status : Nat) (body : JsonBody)
deriving DecidableEq, Repr

/-- Modelled from the spec: `TrainerCentralLessons.create_lesson_with_content`
(`library/lessons.py`, absent from `src/`).  First create the session, then
upload the content referencing the returned session id; return both
sub-results. -/
def create_lesson_with_content (createSession : UpstreamCallResult)
    (uploadContent : String → UpstreamCallResult) :
    UpstreamCallResult × Option UpstreamCallResult :=
  match createSession with
  | .failure s b => (.failure s b, none)
  | .success sid b => (.success sid b, some (uploadContent sid))

/-- Modelled from the spec:
`TrainerCentralAssignments.create_assignment_with_instructions`
(`library/assignments.py`, absent from `src/`). -/
def create_assignment_with_instructions (createSession : UpstreamCallResult)
    (uploadInstructions : String → UpstreamCallResult) :
    UpstreamCallResult × Option UpstreamCallResult :=
  match createSession with
  | .failure s b => (.failure s b, none)
  | .success sid b => (.success sid b, some (uploadInstructions sid))

/-- Modelled from the spec: `TrainerCentralTests.create_full_test`
(`library/tests.py`, absent from `src/`): create the test form, then add the
questions referencing the returned form id. -/
def create_full_test (createForm : UpstreamCallResult)
    (addQuestions : String → UpstreamCallResult) :
    UpstreamCallResult × Option UpstreamCallResult :=
  match createForm with
  | .failure s b => (.failure s b, none)
  | .success fid b => (.success fid b, some (addQuestions fid))

/-- C6: in each composite create, when the first upstream call succeeds and the
second fails, the result still carries the first call's successful result —
including the created parent resource's identifier — alongside the second
call's failure; the first result is never discarded. -/
theorem C6_composite_keeps_first_result (pid : String) (b b' : JsonBody) (s : Nat)
    (first : UpstreamCallResult) (second : String → UpstreamCallResult)
    (h1 : first = .success pid b) (h2 : second pid = .failure s b') :
    create_lesson_with_content first second = (.success pid b, some (.failure s b')) ∧
    create_assignment_with_instructions first second =
      (.success pid b, some (.failure s b')) ∧
    create_full_test first second = (.success pid b, some (.failure s b')) := by
  subst h1
  refine ⟨?_, ?_, ?_⟩ <;>
    simp [create_lesson_with_content, create_assignment_with_instructions,
      create_full_test, h2]

/-- Witness for C6 at concrete inputs. -/
theorem C6_composite_keeps_first_result_witness :
    create_lesson_with_content (.success "sid1" [("sessionId", "sid1")])
        (fun _ => .failure 500 [("error", "upload")]) =
      (.success "sid1" [("sessionId", "sid1")], some (.failure 500 [("error", "upload")])) ∧
    create_assignment_with_instructions (.success "sid1" [("sessionId", "sid1")])
        (fun _ => .failure 500 [("error", "upload")]) =
      (.success "sid1" [("sessionId", "sid1")], some (.failure 500 [("error", "upload")])) ∧
    create_full_test (.success "sid1" [("sessionId", "sid1")])
        (fun _ => .failure 500 [("error", "upload")]) =
      (.success "sid1" [("sessionId", "sid1")], some (.failure 500 [("error", "upload")])) :=
  C6_composite_keeps_first_result "sid1" [("sessionId", "sid1")] [("error", "upload")] 500
    _ _ rfl rfl

/-! ## Date conversion (`utils/date_converter.py`) — C4, C5

`DateConverter.convert_date_to_time` parses one of three formats and returns
milliseconds since the epoch.  The CPython pieces it calls
(`datetime.fromisoformat`, `datetime.strptime` with `"%I:%M%p"`, the
`datetime` constructor and `datetime.timestamp`) are embedded below following
CPython's own date arithmetic (`_is_leap`, `_days_before_month`,
`_days_before_year`, `_ymd2ord`); the host local timezone's UTC offset is an
explicit integer parameter. -/

/-- CPython `datetime._is_leap`. -/
def is_leap (y : Nat) : Bool :=
  y % 4 == 0 && (y % 100 != 0 || y % 400 == 0)

/-- CPython `datetime._days_in_month` (the `_DAYS_IN_MONTH` table plus the
leap-February adjustment). -/
def days_in_month (y m : Nat) : Nat :=
  if m = 2 then (if is_leap y then 29 else 28)
  else if m = 4 ∨ m = 6 ∨ m = 9 ∨ m = 11 then 30
  else 31

/-- CPython `datetime._DAYS_BEFORE_MONTH` table (non-leap years). -/
def DAYS_BEFORE_MONTH : Nat → Nat
  | 2 => 31 | 3 => 59 | 4 => 90 | 5 => 120 | 6 => 151 | 7 => 181
  | 8 => 212 | 9 => 243 | 10 => 273 | 11 => 304 | 12 => 334
  | _ => 0

/-- CPython `datetime._days_before_month`. -/
def days_before_month (y m : Nat) : Nat :=
  DAYS_BEFORE_MONTH m + (if 2 < m ∧ is_leap y then 1 else 0)

/-- CPython `datetime._days_before_year`. -/
def days_before_year (y : Nat) : Nat :=
  (y - 1) * 365 + (y - 1) / 4 - (y - 1) / 100 + (y - 1) / 400

/-- CPython `datetime._ymd2ord`: proleptic-Gregorian ordinal, day 1 is
0001-01-01. -/
def ymd2ord (y m d : Nat) : Nat :=
  days_before_year y + days_before_month y m + d

/-- `date(1970, 1, 1).toordinal()`, the epoch ordinal `datetime.timestamp`
subtracts. -/
def EPOCH_ORDINAL : Nat := 719163

/-- A `datetime.datetime` value (naive; an attached UTC offset is carried
separately where present). -/
structure CivilDateTime where
  year : Nat
  month : Nat
  day : Nat
  hour : Nat
  minute : Nat
  second : Nat
deriving DecidableEq, Repr

/-- Seconds since the epoch of the civil fields read at UTC. -/
def civilSecs (dt : CivilDateTime) : Int :=
  ((ymd2ord dt.year dt.month dt.day : Int) - (EPOCH_ORDINAL : Int)) * 86400
    + dt.hour * 3600 + dt.minute * 60 + dt.second

/-- `int(dt.timestamp() * 1000)`: an aware datetime subtracts its attached
offset; a naive one is interpreted in the host local timezone, whose UTC
offset in seconds east is the parameter `tz`. -/
def timestamp_millis (dt : CivilDateTime) (off : Option Int) (tz : Int) : Int :=
  (civilSecs dt - off.getD tz) * 1000

/-- The `datetime(year, month, day, hour, minute)` constructor with its range
validation (`MINYEAR = 1`, `MAXYEAR = 9999`). -/
def mkDatetime (year month day hour minute : Nat) : Option CivilDateTime :=
  if 1 ≤ year ∧ year ≤ 9999 ∧ 1 ≤ month ∧ month ≤ 12 ∧
      1 ≤ day ∧ day ≤ days_in_month year month ∧ hour ≤ 23 ∧ minute ≤ 59 then
    some { year := year, month := month, day := day,
           hour := hour, minute := minute, second := 0 }
  else none

/-- Value of a decimal digit character. -/
def digitVal (c : Char) : Nat := c.toNat - 48

/-- `int(s)` on the plain digit strings the date formats feed it. -/
def pyInt (cs : List Char) : Option Nat :=
  if cs ≠ [] ∧ cs.all Char.isDigit then
    some (cs.foldl (fun acc c => acc * 10 + digitVal c) 0)
  else none

/-- Python `str.split()`: split on whitespace runs, dropping empty fields. -/
def splitWsAux : List Char → List Char → List (List Char)
  | [], acc => if acc = [] then [] else [acc.reverse]
  | c :: rest, acc =>
    if c.isWhitespace then
      if acc = [] then splitWsAux rest []
      else acc.reverse :: splitWsAux rest []
    else splitWsAux rest (c :: acc)

def splitWs (cs : List Char) : List (List Char) :=
  splitWsAux cs []

/-- Python `str.split(sep)` for a one-character separator (keeps empty fields). -/
def splitSepAux (sep : Char) : List Char → List Char → List (List Char)
  | [], acc => [acc.reverse]
  | c :: rest, acc =>
    if c == sep then acc.reverse :: splitSepAux sep rest []
    else splitSepAux sep rest (c :: acc)

def splitSep (sep : Char) (cs : List Char) : List (List Char) :=
  splitSepAux sep cs []

/-- The `%I` pattern of `strptime` (regex `1[0-2]|0[1-9]|[1-9]`). -/
def matchHour12 : List Char → Option (Nat × List Char)
  | c1 :: c2 :: rest =>
    if c1 == '1' && ('0' ≤ c2 && c2 ≤ '2') then some (10 + digitVal c2, rest)
    else if c1 == '0' && ('1' ≤ c2 && c2 ≤ '9') then some (digitVal c2, rest)
    else if '1' ≤ c1 && c1 ≤ '9' then some (digitVal c1, c2 :: rest)
    else none
  | [c1] => if '1' ≤ c1 && c1 ≤ '9' then some (digitVal c1, []) else none
  | [] => none

/-- The `%M` pattern of `strptime` (regex `[0-5]\d|\d`). -/
def matchMinute : List Char → Option (Nat × List Char)
  | c1 :: c2 :: rest =>
    if ('0' ≤ c1 && c1 ≤ '5') && c2.isDigit then
      some (digitVal c1 * 10 + digitVal c2, rest)
    else if c1.isDigit then some (digitVal c1, c2 :: rest)
    else none
  | [c1] => if c1.isDigit then some (digitVal c1, []) else none
  | [] => none

/-- The `%p` pattern (`AM`/`PM`, case-insensitive; `strptime` requires the
pattern to span the rest of the input).  Returns whether the marker is PM. -/
def matchAmPm (cs : List Char) : Option Bool :=
  match cs.map Char.toLower with
  | ['a', 'm'] => some false
  | ['p', 'm'] => some true
  | _ => none

/-- `datetime.strptime(time_str, "%I:%M%p")`, reduced to the (hour24, minute)
pair the caller reads off (`%I` = 12 with AM is hour 0; PM adds 12). -/
def strptime_IMp (cs : List Char) : Option (Nat × Nat) := do
  let (h12, rest1) ← matchHour12 cs
  match rest1 with
  | ':' :: rest2 => do
    let (mi, rest3) ← matchMinute rest2
    let isPM ← matchAmPm rest3
    pure (h12 % 12 + (if isPM then 12 else 0), mi)
  | _ => none

/-- An exact-width digit run. -/
def parseDigitsAux : Nat → Nat → List Char → Option (Nat × List Char)
  | 0, acc, cs => some (acc, cs)
  | _ + 1, _, [] => none
  | n + 1, acc, c :: cs =>
    if c.isDigit then parseDigitsAux n (acc * 10 + digitVal c) cs else none

/-- `datetime.fromisoformat` on the grammar this codebase feeds it:
`YYYY-MM-DD[THH:MM[:SS][±HH:MM]]` (the code replaces a `Z` suffix by `+00:00`
before the call).  Returns the civil fields and the attached UTC offset in
seconds, when one is present. -/
def fromisoformat (s : String) : Option (CivilDateTime × Option Int) := do
  let cs := s.data
  let (y, cs) ← parseDigitsAux 4 0 cs
  let (mo, cs) ← (match cs with | '-' :: cs => parseDigitsAux 2 0 cs | _ => none)
  let (d, cs) ← (match cs with | '-' :: cs => parseDigitsAux 2 0 cs | _ => none)
  if 1 ≤ y ∧ y ≤ 9999 ∧ 1 ≤ mo ∧ mo ≤ 12 ∧ 1 ≤ d ∧ d ≤ days_in_month y mo then
    match cs with
    | [] =>
      some ({ year := y, month := mo, day := d,
              hour := 0, minute := 0, second := 0 }, none)
    | 'T' :: cs => do
      let (h, cs) ← parseDigitsAux 2 0 cs
      let (mi, cs) ← (match cs with | ':' :: cs => parseDigitsAux 2 0 cs | _ => none)
      let (sec, cs) ← (match cs with
        | ':' :: cs => parseDigitsAux 2 0 cs
        | cs => some (0, cs))
      if h ≤ 23 ∧ mi ≤ 59 ∧ sec ≤ 59 then
        let dt : CivilDateTime :=
          { year := y, month := mo, day := d, hour := h, minute := mi, second := sec }
        match cs with
        | [] => some (dt, none)
        | '+' :: cs => do
          let (oh, cs) ← parseDigitsAux 2 0 cs
          let (om, cs) ← (match cs with | ':' :: cs => parseDigitsAux 2 0 cs | _ => none)
          if cs = [] ∧ oh ≤ 23 ∧ om ≤ 59 then
            some (dt, some ((oh : Int) * 3600 + om * 60))
          else none
        | '-' :: cs => do
          let (oh, cs) ← parseDigitsAux 2 0 cs
          let (om, cs) ← (match cs with | ':' :: cs => parseDigitsAux 2 0 cs | _ => none)
          if cs = [] ∧ oh ≤ 23 ∧ om ≤ 59 then
            some (dt, some (-((oh : Int) * 3600 + om * 60)))
          else none
        | _ => none
      else none
    | _ => none
  else none

/-- `givenDate.replace("Z", "+00:00")`. -/
def replaceZ : List Char → List Char
  | [] => []
  | c :: rest =>
    if c == 'Z' then '+' :: '0' :: '0' :: ':' :: '0' :: '0' :: replaceZ rest
    else c :: replaceZ rest

/-- The two `ValueError`s `convert_date_to_time` can raise: the format-list
error of line 44 (the spec's `InvalidDateFormat`) and the DD-MM-YYYY error of
line 54, both carrying the original input. -/
inductive DateError where
  | invalidFormat (input : String)
  | invalidDMY (input : String)
deriving DecidableEq, Repr

/-- `givenDate.count("-")` (single-character substring count). -/
def countChar (c : Char) (cs : List Char) : Nat :=
  (cs.filter (· == c)).length

/-- `"x" in givenDate` for a single character. -/
def containsChar (c : Char) (cs : List Char) : Bool :=
  cs.contains c

/-- `DateConverter.convert_date_to_time` (`utils/date_converter.py`), with the
local timezone's UTC offset `tz` explicit and the millisecond result as an
integer (the code returns `str()` of it). -/
def convert_date_to_time (tz : Int) (givenDate : String) : Except DateError Int :=
  let cs := givenDate.data
  let isoT : Option Int :=
    if containsChar 'T' cs then
      (fromisoformat (String.mk (replaceZ cs))).map fun p => timestamp_millis p.1 p.2 tz
    else none
  match isoT with
  | some ms => .ok ms
  | none =>
    let isoDate : Option Int :=
      if countChar '-' cs == 2 && !containsChar ' ' cs && !containsChar 'T' cs then
        (fromisoformat givenDate).map fun p => timestamp_millis p.1 p.2 tz
      else none
    match isoDate with
    | some ms => .ok ms
    | none =>
      if !containsChar ' ' cs then .error (.invalidFormat givenDate)
      else
        match splitWs cs with
        | [dateCs, timeCs] =>
          match (splitSep '-' dateCs).mapM pyInt with
          | some [d, mo, y] =>
            match strptime_IMp timeCs with
            | some (h, mi) =>
              match mkDatetime y mo d h mi with
              | some dt => .ok (timestamp_millis dt none tz)
              | none => .error (.invalidDMY givenDate)
            | none => .error (.invalidDMY givenDate)
          | _ => .error (.invalidDMY givenDate)
        | _ => .error (.invalidDMY givenDate)

/-- Reference day count: Hinnant's era-based `days_from_civil`, independent of
the CPython ordinal arithmetic embedded above. -/
def refDaysFromCivil (y m d : Nat) : Int :=
  let ys : Nat := if m ≤ 2 then y - 1 else y
  let era := ys / 400
  let yoe := ys % 400
  let mp := (m + 9) % 12
  let doy := (153 * mp + 2) / 5 + (d - 1)
  let doe := yoe * 365 + yoe / 4 - yoe / 100 + doy
  (era * 146097 + doe : Int) - 719468

/-- Reference epoch-millisecond value of a literal wall-clock time at UTC
offset `tz` seconds east. -/
def refEpochMillis (y m d h mi : Nat) (tz : Int) : Int :=
  (refDaysFromCivil y m d * 86400 + h * 3600 + mi * 60 - tz) * 1000

theorem is_leap_eq_true_iff (y : Nat) :
    is_leap y = true ↔ (y % 4 = 0 ∧ (y % 100 ≠ 0 ∨ y % 400 = 0)) := by
  simp [is_leap]

theorem era_split_tail (y t : Nat) :
    ((y / 400 : Nat) : Int) * 146097
        + ((y % 400 * 365 + y % 400 / 4 - y % 400 / 100 + t : Nat) : Int)
      = ((y * 365 + y / 4 - y / 100 + y / 400 + t : Nat) : Int) := by omega

theorem year_step (y : Nat) (hy : 1 ≤ y) :
    y * 365 + y / 4 - y / 100 + y / 400
      = (y - 1) * 365 + (y - 1) / 4 - (y - 1) / 100 + (y - 1) / 400 + 365
        + (if is_leap y = true then 1 else 0) := by
  have hz1 : y / 100 ≤ y * 365 + y / 4 := by omega
  have hz2 : (y - 1) / 100 ≤ (y - 1) * 365 + (y - 1) / 4 := by omega
  by_cases hl : is_leap y = true
  · have hp := (is_leap_eq_true_iff y).mp hl
    rw [if_pos hl]
    zify [hz1, hz2, hy]
    rcases hp with ⟨h4, h100 | h400⟩ <;> omega
  · have hp : ¬ (y % 4 = 0 ∧ (y % 100 ≠ 0 ∨ y % 400 = 0)) :=
      fun hc => hl ((is_leap_eq_true_iff y).mpr hc)
    rw [if_neg hl]
    zify [hz1, hz2, hy]
    omega

theorem bridge_jan (y d : Nat) (hy1 : 1 ≤ y) (hd1 : 1 ≤ d)
    (hd2 : d ≤ days_in_month y 1) :
    (ymd2ord y 1 d : Int) - 719163 = refDaysFromCivil y 1 d := by
  unfold days_in_month at hd2
  norm_num at hd2
  unfold ymd2ord days_before_year days_before_month refDaysFromCivil
  simp only [DAYS_BEFORE_MONTH]
  rw [if_neg (show ¬ ((2:Nat) < 1 ∧ is_leap y = true) from fun hc => absurd hc.1 (by norm_num))]
  rw [if_pos (show (1:Nat) ≤ 2 from by norm_num)]
  norm_num
  omega

theorem bridge_feb (y d : Nat) (hy1 : 1 ≤ y) (hd1 : 1 ≤ d)
    (hd2 : d ≤ days_in_month y 2) :
    (ymd2ord y 2 d : Int) - 719163 = refDaysFromCivil y 2 d := by
  unfold days_in_month at hd2
  norm_num at hd2
  unfold ymd2ord days_before_year days_before_month refDaysFromCivil
  simp only [DAYS_BEFORE_MONTH]
  rw [if_neg (show ¬ ((2:Nat) < 2 ∧ is_leap y = true) from fun hc => absurd hc.1 (by norm_num))]
  rw [if_pos (show (2:Nat) ≤ 2 from by norm_num)]
  by_cases hl : is_leap y = true
  · have hp := (is_leap_eq_true_iff y).mp hl
    rw [hl] at hd2
    norm_num at hd2
    omega
  · have hp : ¬ (y % 4 = 0 ∧ (y % 100 ≠ 0 ∨ y % 400 = 0)) :=
      fun hc => hl ((is_leap_eq_true_iff y).mpr hc)
    rw [Bool.not_eq_true] at hl
    rw [hl] at hd2
    norm_num at hd2
    omega

theorem bridge_mar (y d : Nat) (hy1 : 1 ≤ y) (hd1 : 1 ≤ d)
    (hd2 : d ≤ days_in_month y 3) :
    (ymd2ord y 3 d : Int) - 719163 = refDaysFromCivil y 3 d := by
  unfold days_in_month at hd2
  norm_num at hd2
  unfold ymd2ord days_before_year days_before_month refDaysFromCivil
  simp only [DAYS_BEFORE_MONTH]
  rw [show (if (3:Nat) ≤ 2 then y - 1 else y) = y from if_neg (by norm_num)]
  rw [era_split_tail, year_step y hy1]
  by_cases hl : is_leap y = true
  · rw [if_pos (show 2 < 3 ∧ is_leap y = true from ⟨by norm_num, hl⟩), if_pos hl]
    zify [show (y - 1) / 100 ≤ (y - 1) * 365 + (y - 1) / 4 from by omega, hd1]
    omega
  · rw [if_neg (show ¬ (2 < 3 ∧ is_leap y = true) from fun hc => hl hc.2), if_neg hl]
    zify [show (y - 1) / 100 ≤ (y - 1) * 365 + (y - 1) / 4 from by omega, hd1]
    omega

theorem bridge_apr (y d : Nat) (hy1 : 1 ≤ y) (hd1 : 1 ≤ d)
    (hd2 : d ≤ days_in_month y 4) :
    (ymd2ord y 4 d : Int) - 719163 = refDaysFromCivil y 4 d := by
  unfold days_in_month at hd2
  norm_num at hd2
  unfold ymd2ord days_before_year days_before_month refDaysFromCivil
  simp only [DAYS_BEFORE_MONTH]
  rw [show (if (4:Nat) ≤ 2 then y - 1 else y) = y from if_neg (by norm_num)]
  rw [era_split_tail, year_step y hy1]
  by_cases hl : is_leap y = true
  · rw [if_pos (show 2 < 4 ∧ is_leap y = true from ⟨by norm_num, hl⟩), if_pos hl]
    zify [show (y - 1) / 100 ≤ (y - 1) * 365 + (y - 1) / 4 from by omega, hd1]
    omega
  · rw [if_neg (show ¬ (2 < 4 ∧ is_leap y = true) from fun hc => hl hc.2), if_neg hl]
    zify [show (y - 1) / 100 ≤ (y - 1) * 365 + (y - 1) / 4 from by omega, hd1]
    omega

theorem bridge_may (y d : Nat) (hy1 : 1 ≤ y) (hd1 : 1 ≤ d)
    (hd2 : d ≤ days_in_month y 5) :
    (ymd2ord y 5 d : Int) - 719163 = refDaysFromCivil y 5 d := by
  unfold days_in_month at hd2
  norm_num at hd2
  unfold ymd2ord days_before_year days_before_month refDaysFromCivil
  simp only [DAYS_BEFORE_MONTH]
  rw [show (if (5:Nat) ≤ 2 then y - 1 else y) = y from if_neg (by norm_num)]
  rw [era_split_tail, year_step y hy1]
  by_cases hl : is_leap y = true
  · rw [if_pos (show 2 < 5 ∧ is_leap y = true from ⟨by norm_num, hl⟩), if_pos hl]
    zify [show (y - 1) / 100 ≤ (y - 1) * 365 + (y - 1) / 4 from by omega, hd1]
    omega
  · rw [if_neg (show ¬ (2 < 5 ∧ is_leap y = true) from fun hc => hl hc.2), if_neg hl]
    zify [show (y - 1) / 100 ≤ (y - 1) * 365 + (y - 1) / 4 from by omega, hd1]
    omega

theorem bridge_jun (y d : Nat) (hy1 : 1 ≤ y) (hd1 : 1 ≤ d)
    (hd2 : d ≤ days_in_month y 6) :
    (ymd2ord y 6 d : Int) - 719163 = refDaysFromCivil y 6 d := by
  unfold days_in_month at hd2
  norm_num at hd2
  unfold ymd2ord days_before_year days_before_month refDaysFromCivil
  simp only [DAYS_BEFORE_MONTH]
  rw [show (if (6:Nat) ≤ 2 then y - 1 else y) = y from if_neg (by norm_num)]
  rw [era_split_tail, year_step y hy1]
  by_cases hl : is_leap y = true
  · rw [if_pos (show 2 < 6 ∧ is_leap y = true from ⟨by norm_num, hl⟩), if_pos hl]
    zify [show (y - 1) / 100 ≤ (y - 1) * 365 + (y - 1) / 4 from by omega, hd1]
    omega
  · rw [if_neg (show ¬ (2 < 6 ∧ is_leap y = true) from fun hc => hl hc.2), if_neg hl]
    zify [show (y - 1) / 100 ≤ (y - 1) * 365 + (y - 1) / 4 from by omega, hd1]
    omega

theorem bridge_jul (y d : Nat) (hy1 : 1 ≤ y) (hd1 : 1 ≤ d)
    (hd2 : d ≤ days_in_month y 7) :
    (ymd2ord y 7 d : Int) - 719163 = refDaysFromCivil y 7 d := by
  unfold days_in_month at hd2
  norm_num at hd2
  unfold ymd2ord days_before_year days_before_month refDaysFromCivil
  simp only [DAYS_BEFORE_MONTH]
  rw [show (if (7:Nat) ≤ 2 then y - 1 else y) = y from if_neg (by norm_num)]
  rw [era_split_tail, year_step y hy1]
  by_cases hl : is_leap y = true
  · rw [if_pos (show 2 < 7 ∧ is_leap y = true from ⟨by norm_num, hl⟩), if_pos hl]
    zify [show (y - 1) / 100 ≤ (y - 1) * 365 + (y - 1) / 4 from by omega, hd1]
    omega
  · rw [if_neg (show ¬ (2 < 7 ∧ is_leap y = true) from fun hc => hl hc.2), if_neg hl]
    zify [show (y - 1) / 100 ≤ (y - 1) * 365 + (y - 1) / 4 from by omega, hd1]
    omega

theorem bridge_aug (y d : Nat) (hy1 : 1 ≤ y) (hd1 : 1 ≤ d)
    (hd2 : d ≤ days_in_month y 8) :
    (ymd2ord y 8 d : Int) - 719163 = refDaysFromCivil y 8 d := by
  unfold days_in_month at hd2
  norm_num at hd2
  unfold ymd2ord days_before_year days_before_month refDaysFromCivil
  simp only [DAYS_BEFORE_MONTH]
  rw [show (if (8:Nat) ≤ 2 then y - 1 else y) = y from if_neg (by norm_num)]
  rw [era_split_tail, year_step y hy1]
  by_cases hl : is_leap y = true
  · rw [if_pos (show 2 < 8 ∧ is_leap y = true from ⟨by norm_num, hl⟩), if_pos hl]
    zify [show (y - 1) / 100 ≤ (y - 1) * 365 + (y - 1) / 4 from by omega, hd1]
    omega
  · rw [if_neg (show ¬ (2 < 8 ∧ is_leap y = true) from fun hc => hl hc.2), if_neg hl]
    zify [show (y - 1) / 100 ≤ (y - 1) * 365 + (y - 1) / 4 from by omega, hd1]
    omega

theorem bridge_sep (y d : Nat) (hy1 : 1 ≤ y) (hd1 : 1 ≤ d)
    (hd2 : d ≤ days_in_month y 9) :
    (ymd2ord y 9 d : Int) - 719163 = refDaysFromCivil y 9 d := by
  unfold days_in_month at hd2
  norm_num at hd2
  unfold ymd2ord days_before_year days_before_month refDaysFromCivil
  simp only [DAYS_BEFORE_MONTH]
  rw [show (if (9:Nat) ≤ 2 then y - 1 else y) = y from if_neg (by norm_num)]
  rw [era_split_tail, year_step y hy1]
  by_cases hl : is_leap y = true
  · rw [if_pos (show 2 < 9 ∧ is_leap y = true from ⟨by norm_num, hl⟩), if_pos hl]
    zify [show (y - 1) / 100 ≤ (y - 1) * 365 + (y - 1) / 4 from by omega, hd1]
    omega
  · rw [if_neg (show ¬ (2 < 9 ∧ is_leap y = true) from fun hc => hl hc.2), if_neg hl]
    zify [show (y - 1) / 100 ≤ (y - 1) * 365 + (y - 1) / 4 from by omega, hd1]
    omega

theorem bridge_oct (y d : Nat) (hy1 : 1 ≤ y) (hd1 : 1 ≤ d)
    (hd2 : d ≤ days_in_month y 10) :
    (ymd2ord y 10 d : Int) - 719163 = refDaysFromCivil y 10 d := by
  unfold days_in_month at hd2
  norm_num at hd2
  unfold ymd2ord days_before_year days_before_month refDaysFromCivil
  simp only [DAYS_BEFORE_MONTH]
  rw [show (if (10:Nat) ≤ 2 then y - 1 else y) = y from if_neg (by norm_num)]
  rw [era_split_tail, year_step y hy1]
  by_cases hl : is_leap y = true
  · rw [if_pos (show 2 < 10 ∧ is_leap y = true from ⟨by norm_num, hl⟩), if_pos hl]
    zify [show (y - 1) / 100 ≤ (y - 1) * 365 + (y - 1) / 4 from by omega, hd1]
    omega
  · rw [if_neg (show ¬ (2 < 10 ∧ is_leap y = true) from fun hc => hl hc.2), if_neg hl]
    zify [show (y - 1) / 100 ≤ (y - 1) * 365 + (y - 1) / 4 from by omega, hd1]
    omega

theorem bridge_nov (y d : Nat) (hy1 : 1 ≤ y) (hd1 : 1 ≤ d)
    (hd2 : d ≤ days_in_month y 11) :
    (ymd2ord y 11 d : Int) - 719163 = refDaysFromCivil y 11 d := by
  unfold days_in_month at hd2
  norm_num at hd2
  unfold ymd2ord days_before_year days_before_month refDaysFromCivil
  simp only [DAYS_BEFORE_MONTH]
  rw [show (if (11:Nat) ≤ 2 then y - 1 else y) = y from if_neg (by norm_num)]
  rw [era_split_tail, year_step y hy1]
  by_cases hl : is_leap y = true
  · rw [if_pos (show 2 < 11 ∧ is_leap y = true from ⟨by norm_num, hl⟩), if_pos hl]
    zify [show (y - 1) / 100 ≤ (y - 1) * 365 + (y - 1) / 4 from by omega, hd1]
    omega
  · rw [if_neg (show ¬ (2 < 11 ∧ is_leap y = true) from fun hc => hl hc.2), if_neg hl]
    zify [show (y - 1) / 100 ≤ (y - 1) * 365 + (y - 1) / 4 from by omega, hd1]
    omega

theorem bridge_dec (y d : Nat) (hy1 : 1 ≤ y) (hd1 : 1 ≤ d)
    (hd2 : d ≤ days_in_month y 12) :
    (ymd2ord y 12 d : Int) - 719163 = refDaysFromCivil y 12 d := by
  unfold days_in_month at hd2
  norm_num at hd2
  unfold ymd2ord days_before_year days_before_month refDaysFromCivil
  simp only [DAYS_BEFORE_MONTH]
  rw [show (if (12:Nat) ≤ 2 then y - 1 else y) = y from if_neg (by norm_num)]
  rw [era_split_tail, year_step y hy1]
  by_cases hl : is_leap y = true
  · rw [if_pos (show 2 < 12 ∧ is_leap y = true from ⟨by norm_num, hl⟩), if_pos hl]
    zify [show (y - 1) / 100 ≤ (y - 1) * 365 + (y - 1) / 4 from by omega, hd1]
    omega
  · rw [if_neg (show ¬ (2 < 12 ∧ is_leap y = true) from fun hc => hl hc.2), if_neg hl]
    zify [show (y - 1) / 100 ≤ (y - 1) * 365 + (y - 1) / 4 from by omega, hd1]
    omega

theorem ymd2ord_sub_epoch_eq_ref (y m d : Nat) (hy1 : 1 ≤ y) (hm1 : 1 ≤ m) (hm2 : m ≤ 12)
    (hd1 : 1 ≤ d) (hd2 : d ≤ days_in_month y m) :
    (ymd2ord y m d : Int) - 719163 = refDaysFromCivil y m d := by
  interval_cases m
  · exact bridge_jan y d hy1 hd1 hd2
  · exact bridge_feb y d hy1 hd1 hd2
  · exact bridge_mar y d hy1 hd1 hd2
  · exact bridge_apr y d hy1 hd1 hd2
  · exact bridge_may y d hy1 hd1 hd2
  · exact bridge_jun y d hy1 hd1 hd2
  · exact bridge_jul y d hy1 hd1 hd2
  · exact bridge_aug y d hy1 hd1 hd2
  · exact bridge_sep y d hy1 hd1 hd2
  · exact bridge_oct y d hy1 hd1 hd2
  · exact bridge_nov y d hy1 hd1 hd2
  · exact bridge_dec y d hy1 hd1 hd2

/-! ### Canonical rendering of well-formed `DD-MM-YYYY HH:MMAM/PM` inputs (C4)

A well-formed input of the fallback format is characterised by its components;
`renderDMY` assembles the input string from them (two-digit day/month/minute,
four-digit year, unpadded 1–12 hour, an `AM`/`PM` marker in either case). -/

def pad2 (n : Nat) : List Char :=
  [Nat.digitChar (n / 10 % 10), Nat.digitChar (n % 10)]

def pad4 (n : Nat) : List Char :=
  [Nat.digitChar (n / 1000 % 10), Nat.digitChar (n / 100 % 10),
   Nat.digitChar (n / 10 % 10), Nat.digitChar (n % 10)]

def renderHour (h : Nat) : List Char :=
  if h ≤ 9 then [Nat.digitChar (h % 10)] else ['1', Nat.digitChar ((h - 10) % 10)]

def dmyDateChars (d m y : Nat) : List Char :=
  pad2 d ++ '-' :: (pad2 m ++ '-' :: pad4 y)

def dmyTimeChars (h12 mi : Nat) (marker : List Char) : List Char :=
  renderHour h12 ++ ':' :: (pad2 mi ++ marker)

def renderDMY (d m y h12 mi : Nat) (marker : List Char) : String :=
  String.mk (dmyDateChars d m y ++ ' ' :: dmyTimeChars h12 mi marker)

theorem digitChar_facts : ∀ n, n < 10 →
    (Nat.digitChar n).isDigit = true ∧
    (Nat.digitChar n).isWhitespace = false ∧
    (Nat.digitChar n == '-') = false ∧
    ('T' == Nat.digitChar n) = false ∧
    (' ' == Nat.digitChar n) = false ∧
    digitVal (Nat.digitChar n) = n := by decide

theorem digit_cmp_le2 : ∀ k, k ≤ 2 →
    (decide ('0' ≤ Nat.digitChar k) && decide (Nat.digitChar k ≤ '2')) = true := by decide

theorem digit_cmp_1to9 : ∀ k, 1 ≤ k → k ≤ 9 →
    (decide ('1' ≤ Nat.digitChar k) && decide (Nat.digitChar k ≤ '9')) = true := by decide

theorem digit_cmp_le5 : ∀ k, k ≤ 5 →
    (decide ('0' ≤ Nat.digitChar k) && decide (Nat.digitChar k ≤ '5')) = true := by decide

theorem mod10_lt (k : Nat) : k % 10 < 10 := Nat.mod_lt _ (by norm_num)

theorem matchHour12_renderHour (h12 : Nat) (h1 : 1 ≤ h12) (h2 : h12 ≤ 12)
    (rest : List Char) :
    matchHour12 (renderHour h12 ++ ':' :: rest) = some (h12, ':' :: rest) := by
  by_cases h9 : h12 ≤ 9
  · have hmod : h12 % 10 = h12 := Nat.mod_eq_of_lt (by omega)
    have hc3 := digit_cmp_1to9 h12 h1 (by omega)
    have hdv := (digitChar_facts h12 (by omega)).2.2.2.2.2
    simp only [renderHour, if_pos h9, hmod, List.cons_append, List.nil_append,
      matchHour12]
    rw [show (decide ((':' : Char) ≤ '2')) = false from rfl,
        show (decide ((':' : Char) ≤ '9')) = false from rfl]
    simp [hc3, hdv]
  · have h10 : ¬ (h12 ≤ 9) := h9
    have hk : (h12 - 10) % 10 = h12 - 10 := Nat.mod_eq_of_lt (by omega)
    have hc1 := digit_cmp_le2 (h12 - 10) (by omega)
    have hdv := (digitChar_facts (h12 - 10) (by omega)).2.2.2.2.2
    simp only [renderHour, if_neg h10, hk, List.cons_append, List.nil_append,
      matchHour12]
    rw [show (('1' : Char) == '1') = true from rfl]
    simp [hc1, hdv]
    omega

theorem matchMinute_pad2 (mi : Nat) (h : mi ≤ 59) (rest : List Char) :
    matchMinute (pad2 mi ++ rest) = some (mi, rest) := by
  have h5 : mi / 10 % 10 ≤ 5 := by omega
  have hc1 := digit_cmp_le5 (mi / 10 % 10) h5
  have hd2 := (digitChar_facts (mi % 10) (mod10_lt mi)).1
  have hv1 := (digitChar_facts (mi / 10 % 10) (mod10_lt _)).2.2.2.2.2
  have hv2 := (digitChar_facts (mi % 10) (mod10_lt mi)).2.2.2.2.2
  simp only [pad2, List.cons_append, List.nil_append, matchMinute]
  simp [hc1, hd2, hv1, hv2]
  omega

theorem matchAmPm_cases :
    matchAmPm ['A', 'M'] = some false ∧ matchAmPm ['a', 'm'] = some false ∧
    matchAmPm ['P', 'M'] = some true ∧ matchAmPm ['p', 'm'] = some true := by
  decide

theorem strptime_IMp_render (h12 mi : Nat) (h1 : 1 ≤ h12) (h2 : h12 ≤ 12)
    (hmi : mi ≤ 59) (marker : List Char) (pm : Bool)
    (hmk : matchAmPm marker = some pm) :
    strptime_IMp (dmyTimeChars h12 mi marker) =
      some (h12 % 12 + (if pm then 12 else 0), mi) := by
  unfold dmyTimeChars strptime_IMp
  rw [matchHour12_renderHour h12 h1 h2]
  simp only [Option.bind_eq_bind, Option.some_bind]
  rw [matchMinute_pad2 mi hmi]
  simp [hmk]

theorem pyInt_pad2 (n : Nat) (h : n < 100) : pyInt (pad2 n) = some n := by
  have f1 := digitChar_facts (n / 10 % 10) (mod10_lt _)
  have f2 := digitChar_facts (n % 10) (mod10_lt n)
  simp only [pyInt, pad2]
  rw [if_pos ⟨by simp, by simp [f1.1, f2.1]⟩]
  simp only [List.foldl, f1.2.2.2.2.2, f2.2.2.2.2.2]
  congr 1
  omega

theorem pyInt_pad4 (n : Nat) (h : n < 10000) : pyInt (pad4 n) = some n := by
  have f1 := digitChar_facts (n / 1000 % 10) (mod10_lt _)
  have f2 := digitChar_facts (n / 100 % 10) (mod10_lt _)
  have f3 := digitChar_facts (n / 10 % 10) (mod10_lt _)
  have f4 := digitChar_facts (n % 10) (mod10_lt n)
  simp only [pyInt, pad4]
  rw [if_pos ⟨by simp, by simp [f1.1, f2.1, f3.1, f4.1]⟩]
  simp only [List.foldl, f1.2.2.2.2.2, f2.2.2.2.2.2, f3.2.2.2.2.2, f4.2.2.2.2.2]
  congr 1
  omega

theorem splitSepAux_no_sep (sep : Char) (a : List Char)
    (ha : ∀ c ∈ a, (c == sep) = false) (rest acc : List Char) :
    splitSepAux sep (a ++ rest) acc = splitSepAux sep rest (a.reverse ++ acc) := by
  induction a generalizing acc with
  | nil => simp
  | cons c a' ih =>
    have hc : (c == sep) = false := ha c (List.mem_cons_self _ _)
    have ha' : ∀ x ∈ a', (x == sep) = false := fun x hx => ha x (List.mem_cons_of_mem _ hx)
    simp only [List.cons_append, splitSepAux, hc, Bool.false_eq_true, if_false,
      List.append_eq]
    rw [ih ha', show (c :: a').reverse ++ acc = a'.reverse ++ (c :: acc) from by simp]

theorem splitSepAux_cons_sep (sep : Char) (rest acc : List Char) :
    splitSepAux sep (sep :: rest) acc = acc.reverse :: splitSepAux sep rest [] := by
  simp [splitSepAux]

theorem pad2_no_dash (n : Nat) : ∀ c ∈ pad2 n, (c == '-') = false := by
  intro c hc
  rcases (by simpa [pad2] using hc : c = _ ∨ c = _) with rfl | rfl <;>
    exact (digitChar_facts _ (mod10_lt _)).2.2.1

theorem pad4_no_dash (n : Nat) : ∀ c ∈ pad4 n, (c == '-') = false := by
  intro c hc
  rcases (by simpa [pad4] using hc : c = _ ∨ c = _ ∨ c = _ ∨ c = _) with
    rfl | rfl | rfl | rfl <;>
    exact (digitChar_facts _ (mod10_lt _)).2.2.1

theorem splitSep_dmyDate (d m y : Nat) :
    splitSep '-' (dmyDateChars d m y) = [pad2 d, pad2 m, pad4 y] := by
  unfold splitSep dmyDateChars
  rw [splitSepAux_no_sep '-' (pad2 d) (pad2_no_dash d), splitSepAux_cons_sep,
      splitSepAux_no_sep '-' (pad2 m) (pad2_no_dash m), splitSepAux_cons_sep]
  rw [show pad4 y = pad4 y ++ ([] : List Char) from (List.append_nil _).symm,
      splitSepAux_no_sep '-' (pad4 y) (pad4_no_dash y)]
  simp [splitSepAux]

theorem splitWsAux_no_ws (a : List Char) (ha : ∀ c ∈ a, c.isWhitespace = false)
    (rest acc : List Char) :
    splitWsAux (a ++ rest) acc = splitWsAux rest (a.reverse ++ acc) := by
  induction a generalizing acc with
  | nil => simp
  | cons c a' ih =>
    have hc : c.isWhitespace = false := ha c (List.mem_cons_self _ _)
    have ha' : ∀ x ∈ a', x.isWhitespace = false := fun x hx => ha x (List.mem_cons_of_mem _ hx)
    simp only [List.cons_append, splitWsAux, hc, Bool.false_eq_true, if_false,
      List.append_eq]
    rw [ih ha', show (c :: a').reverse ++ acc = a'.reverse ++ (c :: acc) from by simp]

theorem splitWs_fields (a b : List Char) (ha0 : a ≠ []) (hb0 : b ≠ [])
    (ha : ∀ c ∈ a, c.isWhitespace = false) (hb : ∀ c ∈ b, c.isWhitespace = false) :
    splitWs (a ++ ' ' :: b) = [a, b] := by
  unfold splitWs
  rw [splitWsAux_no_ws a ha]
  have hra : ¬ (a.reverse ++ ([] : List Char) = []) := by simp [ha0]
  simp only [splitWsAux]
  rw [if_pos (show (' '.isWhitespace) = true from rfl), if_neg hra]
  rw [show b = b ++ ([] : List Char) from (List.append_nil _).symm,
      splitWsAux_no_ws b hb]
  have hrb : ¬ (b.reverse ++ ([] : List Char) = []) := by simp [hb0]
  simp only [splitWsAux]
  rw [if_neg hrb]
  simp

theorem containsChar_cons (c x : Char) (l : List Char) :
    containsChar c (x :: l) = ((c == x) || containsChar c l) := by
  show List.elem c (x :: l) = _
  cases h : c == x <;> simp [List.elem, h, containsChar, List.contains]

theorem containsChar_append (c : Char) (a b : List Char) :
    containsChar c (a ++ b) = (containsChar c a || containsChar c b) := by
  induction a with
  | nil => simp [containsChar]
  | cons x xs ih =>
    simp only [List.cons_append, containsChar_cons, ih, Bool.or_assoc]

theorem T_beq_digit (k : Nat) : ('T' == Nat.digitChar (k % 10)) = false :=
  (digitChar_facts _ (mod10_lt k)).2.2.2.1

theorem space_beq_digit (k : Nat) : (' ' == Nat.digitChar (k % 10)) = false :=
  (digitChar_facts _ (mod10_lt k)).2.2.2.2.1

theorem digit_not_ws (k : Nat) : (Nat.digitChar (k % 10)).isWhitespace = false :=
  (digitChar_facts _ (mod10_lt k)).2.1

theorem timestamp_millis_eq_ref (y m d h mi : Nat) (tz : Int)
    (hy1 : 1 ≤ y) (hm1 : 1 ≤ m) (hm2 : m ≤ 12) (hd1 : 1 ≤ d)
    (hd2 : d ≤ days_in_month y m) :
    timestamp_millis { year := y, month := m, day := d, hour := h, minute := mi,
                       second := 0 } none tz = refEpochMillis y m d h mi tz := by
  have key := ymd2ord_sub_epoch_eq_ref y m d hy1 hm1 hm2 hd1 hd2
  simp only [timestamp_millis, civilSecs, refEpochMillis, EPOCH_ORDINAL, Option.getD]
  rw [show ((719163 : Nat) : Int) = (719163 : Int) from by norm_num, key]
  push_cast
  ring

theorem mkDatetime_valid (y m d h mi : Nat) (hy1 : 1 ≤ y) (hy2 : y ≤ 9999)
    (hm1 : 1 ≤ m) (hm2 : m ≤ 12) (hd1 : 1 ≤ d) (hd2 : d ≤ days_in_month y m)
    (hh : h ≤ 23) (hmi : mi ≤ 59) :
    mkDatetime y m d h mi =
      some { year := y, month := m, day := d, hour := h, minute := mi, second := 0 } := by
  unfold mkDatetime
  rw [if_pos ⟨hy1, hy2, hm1, hm2, hd1, hd2, hh, hmi⟩]

theorem days_in_month_le_31 (y m : Nat) : days_in_month y m ≤ 31 := by
  unfold days_in_month
  split_ifs <;> norm_num

theorem pad2_no_ws (n : Nat) : ∀ c ∈ pad2 n, c.isWhitespace = false := by
  intro c hc
  rcases (by simpa [pad2] using hc : c = _ ∨ c = _) with rfl | rfl <;> exact digit_not_ws _

theorem pad4_no_ws (n : Nat) : ∀ c ∈ pad4 n, c.isWhitespace = false := by
  intro c hc
  rcases (by simpa [pad4] using hc : c = _ ∨ c = _ ∨ c = _ ∨ c = _) with
    rfl | rfl | rfl | rfl <;> exact digit_not_ws _

theorem renderHour_no_ws (h : Nat) : ∀ c ∈ renderHour h, c.isWhitespace = false := by
  intro c hc
  unfold renderHour at hc
  by_cases h9 : h ≤ 9
  · rw [if_pos h9] at hc
    rcases (by simpa using hc : c = _) with rfl
    exact digit_not_ws _
  · rw [if_neg h9] at hc
    rcases (by simpa using hc : c = '1' ∨ c = _) with rfl | rfl
    · rfl
    · exact digit_not_ws _

theorem dmyDateChars_no_ws (d m y : Nat) :
    ∀ c ∈ dmyDateChars d m y, c.isWhitespace = false := by
  intro c hc
  unfold dmyDateChars at hc
  rcases List.mem_append.mp hc with h | h
  · exact pad2_no_ws d c h
  rcases List.mem_cons.mp h with rfl | h
  · rfl
  rcases List.mem_append.mp h with h | h
  · exact pad2_no_ws m c h
  rcases List.mem_cons.mp h with rfl | h
  · rfl
  · exact pad4_no_ws y c h

theorem dmyTimeChars_no_ws (h12 mi : Nat) (marker : List Char)
    (hmk : ∀ c ∈ marker, c.isWhitespace = false) :
    ∀ c ∈ dmyTimeChars h12 mi marker, c.isWhitespace = false := by
  intro c hc
  unfold dmyTimeChars at hc
  rcases List.mem_append.mp hc with h | h
  · exact renderHour_no_ws h12 c h
  rcases List.mem_cons.mp h with rfl | h
  · rfl
  rcases List.mem_append.mp h with h | h
  · exact pad2_no_ws mi c h
  · exact hmk c h

theorem dmyDateChars_ne_nil (d m y : Nat) : dmyDateChars d m y ≠ [] := by
  simp [dmyDateChars, pad2]

theorem dmyTimeChars_ne_nil (h12 mi : Nat) (marker : List Char) :
    dmyTimeChars h12 mi marker ≠ [] := by
  unfold dmyTimeChars renderHour
  split <;> simp

theorem T_ne_digit (k : Nat) : ¬ ('T' = Nat.digitChar (k % 10)) := by
  simpa using T_beq_digit k

theorem T_not_mem_pad2 (n : Nat) : 'T' ∉ pad2 n := by
  intro h
  rcases (by simpa [pad2] using h : 'T' = _ ∨ 'T' = _) with h | h
  · exact T_ne_digit (n / 10) h
  · exact T_ne_digit n h

theorem T_not_mem_pad4 (n : Nat) : 'T' ∉ pad4 n := by
  intro h
  rcases (by simpa [pad4] using h : 'T' = _ ∨ 'T' = _ ∨ 'T' = _ ∨ 'T' = _) with
    h | h | h | h
  · exact T_ne_digit (n / 1000) h
  · exact T_ne_digit (n / 100) h
  · exact T_ne_digit (n / 10) h
  · exact T_ne_digit n h

theorem noT_render (d m y h12 mi : Nat) (marker : List Char)
    (hmkT : 'T' ∉ marker) :
    containsChar 'T' (dmyDateChars d m y ++ ' ' :: dmyTimeChars h12 mi marker) = false := by
  unfold dmyDateChars dmyTimeChars renderHour
  split <;>
    simp [containsChar_append, containsChar_cons, containsChar, T_not_mem_pad2,
      T_not_mem_pad4, hmkT, T_ne_digit]

theorem space_in_render (a b : List Char) : containsChar ' ' (a ++ ' ' :: b) = true := by
  simp [containsChar_append, containsChar_cons]

theorem convert_dmy_eval (tz : Int) (s : String)
    (hT : containsChar 'T' s.data = false)
    (hSp : containsChar ' ' s.data = true)
    (dateCs timeCs : List Char)
    (hsplit : splitWs s.data = [dateCs, timeCs])
    (d mo y : Nat)
    (hints : (splitSep '-' dateCs).mapM pyInt = some [d, mo, y])
    (h mi : Nat)
    (htime : strptime_IMp timeCs = some (h, mi))
    (dt : CivilDateTime)
    (hdt : mkDatetime y mo d h mi = some dt) :
    convert_date_to_time tz s = .ok (timestamp_millis dt none tz) := by
  simp only [convert_date_to_time, hT, hSp, hsplit, hints, htime, hdt,
    Bool.false_eq_true, Bool.not_true, Bool.and_false, Bool.false_and,
    if_false, Bool.not_false, if_true]

theorem C4_core (tz : Int) (d m y h12 mi : Nat) (marker : List Char) (pm : Bool)
    (hd1 : 1 ≤ d) (hd2 : d ≤ days_in_month y m) (hm1 : 1 ≤ m) (hm2 : m ≤ 12)
    (hy1 : 1 ≤ y) (hy2 : y ≤ 9999) (hh1 : 1 ≤ h12) (hh2 : h12 ≤ 12) (hmi : mi ≤ 59)
    (hpm : matchAmPm marker = some pm)
    (hT : 'T' ∉ marker)
    (hws : ∀ c ∈ marker, c.isWhitespace = false) :
    convert_date_to_time tz (renderDMY d m y h12 mi marker) =
      .ok (refEpochMillis y m d (h12 % 12 + (if pm then 12 else 0)) mi tz) := by
  have hd100 : d < 100 := by have := days_in_month_le_31 y m; omega
  have hm100 : m < 100 := by omega
  have hy4 : y < 10000 := by omega
  have h24 : h12 % 12 + (if pm then 12 else 0) ≤ 23 := by
    have hlt : h12 % 12 < 12 := Nat.mod_lt _ (by norm_num)
    cases pm <;> simp <;> omega
  have hT' : containsChar 'T' (renderDMY d m y h12 mi marker).data = false :=
    noT_render d m y h12 mi marker hT
  have hSp' : containsChar ' ' (renderDMY d m y h12 mi marker).data = true :=
    space_in_render _ _
  have hsplit' : splitWs (renderDMY d m y h12 mi marker).data =
      [dmyDateChars d m y, dmyTimeChars h12 mi marker] :=
    splitWs_fields _ _ (dmyDateChars_ne_nil d m y) (dmyTimeChars_ne_nil h12 mi marker)
      (dmyDateChars_no_ws d m y) (dmyTimeChars_no_ws h12 mi marker hws)
  have hints : (splitSep '-' (dmyDateChars d m y)).mapM pyInt = some [d, m, y] := by
    rw [splitSep_dmyDate]
    simp [List.mapM, List.mapM.loop, pyInt_pad2 d hd100, pyInt_pad2 m hm100,
      pyInt_pad4 y hy4]
  rw [convert_dmy_eval tz (renderDMY d m y h12 mi marker) hT' hSp'
      (dmyDateChars d m y) (dmyTimeChars h12 mi marker) hsplit' d m y hints
      (h12 % 12 + (if pm then 12 else 0)) mi
      (strptime_IMp_render h12 mi hh1 hh2 hmi marker pm hpm)
      { year := y, month := m, day := d, hour := h12 % 12 + (if pm then 12 else 0),
        minute := mi, second := 0 }
      (mkDatetime_valid y m d _ mi hy1 hy2 hm1 hm2 hd1 hd2 h24 hmi)]
  exact congrArg Except.ok (timestamp_millis_eq_ref y m d _ mi tz hy1 hm1 hm2 hd1 hd2)

/-- C4: for every well-formed `DD-MM-YYYY HH:MMAM/PM` input — characterised by
its component values and rendered canonically (two-digit day/month/minute,
four-digit year, unpadded 1–12 hour, `AM`/`PM` marker in either case) —
`convert_date_to_time` returns exactly the reference epoch-millisecond value
(Hinnant day-count) of that literal wall-clock time at the host timezone
offset `tz`; in particular `convert_date_to_time("29-11-2025 4:30PM")` yields
the millisecond timestamp of 2025-11-29 16:30 local time. -/
theorem C4_dmy_normalize_matches_reference (tz : Int) (d m y h12 mi : Nat)
    (marker : List Char)
    (hd1 : 1 ≤ d) (hd2 : d ≤ days_in_month y m) (hm1 : 1 ≤ m) (hm2 : m ≤ 12)
    (hy1 : 1 ≤ y) (hy2 : y ≤ 9999) (hh1 : 1 ≤ h12) (hh2 : h12 ≤ 12) (hmi : mi ≤ 59)
    (hmk : marker = ['A', 'M'] ∨ marker = ['a', 'm'] ∨ marker = ['P', 'M'] ∨
      marker = ['p', 'm']) :
    convert_date_to_time tz (renderDMY d m y h12 mi marker) =
      .ok (refEpochMillis y m d
        (h12 % 12 + (if marker = ['P', 'M'] ∨ marker = ['p', 'm'] then 12 else 0))
        mi tz) ∧
    convert_date_to_time tz "29-11-2025 4:30PM" =
      .ok (refEpochMillis 2025 11 29 16 30 tz) := by
  refine ⟨?_, rfl⟩
  rcases hmk with rfl | rfl | rfl | rfl
  · rw [if_neg (by decide)]
    simpa using C4_core tz d m y h12 mi ['A', 'M'] false hd1 hd2 hm1 hm2 hy1 hy2
      hh1 hh2 hmi rfl (by decide) (by decide)
  · rw [if_neg (by decide)]
    simpa using C4_core tz d m y h12 mi ['a', 'm'] false hd1 hd2 hm1 hm2 hy1 hy2
      hh1 hh2 hmi rfl (by decide) (by decide)
  · rw [if_pos (by decide)]
    simpa using C4_core tz d m y h12 mi ['P', 'M'] true hd1 hd2 hm1 hm2 hy1 hy2
      hh1 hh2 hmi rfl (by decide) (by decide)
  · rw [if_pos (by decide)]
    simpa using C4_core tz d m y h12 mi ['p', 'm'] true hd1 hd2 hm1 hm2 hy1 hy2
      hh1 hh2 hmi rfl (by decide) (by decide)

/-- Witness for C4 at concrete inputs (IST offset +5:30 = 19800 s). -/
theorem C4_dmy_normalize_matches_reference_witness :
    convert_date_to_time 19800 (renderDMY 29 11 2025 4 30 ['P', 'M']) =
      .ok (refEpochMillis 2025 11 29
        (4 % 12 + (if (['P', 'M'] : List Char) = ['P', 'M'] ∨
          (['P', 'M'] : List Char) = ['p', 'm'] then 12 else 0)) 30 19800) ∧
    convert_date_to_time 19800 "29-11-2025 4:30PM" =
      .ok (refEpochMillis 2025 11 29 16 30 19800) :=
  C4_dmy_normalize_matches_reference 19800 29 11 2025 4 30 ['P', 'M']
    (by decide) (by decide) (by decide) (by decide) (by decide) (by decide)
    (by decide) (by decide) (by decide) (by decide)

/-- C5: the normalizer succeeds on full ISO-8601 date-time input (a trailing
`Z` is treated as UTC offset zero, making the result timezone-independent) and
on ISO date-only input (local midnight), yielding the reference millisecond
values, and it fails with the format-list `ValueError` (the spec's
`InvalidDateFormat`) on an input matching none of the three formats. -/
theorem C5_iso_formats (tz : Int) :
    convert_date_to_time tz "2025-12-01T14:30:00" =
      .ok (refEpochMillis 2025 12 1 14 30 tz) ∧
    convert_date_to_time tz "2025-12-01" =
      .ok (refEpochMillis 2025 12 1 0 0 tz) ∧
    convert_date_to_time tz "2025-12-01T14:30:00Z" =
      .ok (refEpochMillis 2025 12 1 14 30 0) ∧
    convert_date_to_time tz "not-a-date" =
      .error (.invalidFormat "not-a-date") :=
  ⟨rfl, rfl, rfl, rfl⟩

example : ymd2ord 1970 1 1 = 719163 := by decide
example : refDaysFromCivil 1970 1 1 = 0 := by decide
example : refDaysFromCivil 2025 11 29 = 20421 := by decide
example : civilSecs ({ year := 2025, month := 11, day := 29, hour := 16,
                       minute := 30, second := 0 } : CivilDateTime) =
    refDaysFromCivil 2025 11 29 * 86400 + 59400 := by decide
example : fromisoformat "2025-12-01T14:30:00" =
    some ({ year := 2025, month := 12, day := 1, hour := 14, minute := 30,
            second := 0 }, none) := by decide
example : fromisoformat "2025-12-01" =
    some ({ year := 2025, month := 12, day := 1, hour := 0, minute := 0,
            second := 0 }, none) := by decide
example : fromisoformat (String.mk (replaceZ "2025-12-01T14:30:00Z".data)) =
    some ({ year := 2025, month := 12, day := 1, hour := 14, minute := 30,
            second := 0 }, some 0) := by decide
example : strptime_IMp "4:30PM".data = some (16, 30) := by decide
example : strptime_IMp "12:05am".data = some (0, 5) := by decide
example : convert_date_to_time 19800 "not-a-date" =
    .error (.invalidFormat "not-a-date") := rfl
example : convert_date_to_time 19800 "29-11-2025 4:30PM" =
    .ok (refEpochMillis 2025 11 29 16 30 19800) := rfl

end TCCGPT
